import Mathlib

/-!
Verification of the HH.gpt chat front end (src/main.py): a shallow embedding
of the language classifier `detect_language`, the `login` auth gate, the
chat-turn message appends, the `get_gemini_reply` request construction, and
the startup API-key check, together with theorems settling the spec claims.

Strings from the Python source are modelled as `List Char` (Python strings
are sequences of code points).  Python's `str.lower()` is modelled on the
ASCII range, which is the only range relevant to the nine ASCII marker
words the classifier matches.
-/

/-- A character in the Arabic-script Unicode block, as matched by the
regex `[؀-ۿ]` on line 52 of main.py. -/
def isUrduChar (c : Char) : Bool :=
  0x0600 ≤ c.toNat && c.toNat ≤ 0x06FF

/-- A Latin letter, as matched by the regex `[A-Za-z]` on line 53 of main.py. -/
def isLatinChar (c : Char) : Bool :=
  (0x41 ≤ c.toNat && c.toNat ≤ 0x5A) || (0x61 ≤ c.toNat && c.toNat ≤ 0x7A)

/-- ASCII lowercasing of one character, modelling Python's `str.lower()`
on the range relevant to the ASCII marker words. -/
def lowerChar (c : Char) : Char :=
  if 0x41 ≤ c.toNat ∧ c.toNat ≤ 0x5A then Char.ofNat (c.toNat + 32) else c

/-- `isPrefixList pat s` holds when `pat` is an initial segment of `s`. -/
def isPrefixList : List Char → List Char → Bool
  | [], _ => true
  | _ :: _, [] => false
  | p :: ps, c :: cs => p == c && isPrefixList ps cs

/-- `containsSub pat s` models Python's substring test `pat in s`. -/
def containsSub (pat : List Char) : List Char → Bool
  | [] => isPrefixList pat []
  | c :: cs => isPrefixList pat (c :: cs) || containsSub pat cs

/-- The fixed marker-word list `roman_urdu_words` of main.py line 59. -/
def roman_urdu_words : List (List Char) :=
  ["kaise", "ap", "mein", "ho", "kya", "acha", "nahi", "haan", "theek"].map
    String.toList

/-- Embedding of `detect_language` (main.py lines 50-64): `urdu` when
Arabic-script characters occur and no Latin letter does; otherwise, when a
Latin letter occurs, `roman_urdu` when the lowercased text contains a
marker word as a substring, else `english`; `english` as default. -/
def detect_language (text : List Char) : String :=
  if text.filter isUrduChar ≠ [] ∧ text.filter isLatinChar = [] then
    "urdu"
  else if text.filter isLatinChar ≠ [] then
    if roman_urdu_words.any (fun word => containsSub word (text.map lowerChar)) then
      "roman_urdu"
    else
      "english"
  else
    "english"

/-- A `{role, content}` chat message. -/
structure Message where
  role : String
  content : List Char
deriving DecidableEq, Repr

/-- The Streamlit session state used by main.py: `messages`, `logged_in`,
`show_login`, `username` (initialised at lines 113-120). -/
structure SessionState where
  messages : List Message
  logged_in : Bool
  show_login : Bool
  username : List Char
deriving DecidableEq, Repr

/-- The initial session state of main.py lines 113-120. -/
def initState : SessionState :=
  { messages := [], logged_in := false, show_login := true, username := [] }

/-- Embedding of `login` (main.py lines 67-75).  The second component is
`none` on success and carries the `st.error` message on failure. -/
def login (s : SessionState) (username password : List Char) :
    SessionState × Option String :=
  if username ≠ [] ∧ password ≠ [] then
    ({ s with logged_in := true, show_login := false, username := username },
     none)
  else
    (s, some "Invalid credentials. Please try again.")

/-- Embedding of the chat section's state change (main.py lines 146-153):
append the user message, then append the assistant reply fetched for it. -/
def chat_turn (s : SessionState) (prompt reply : List Char) : SessionState :=
  let s1 := { s with messages := s.messages ++ [Message.mk "user" prompt] }
  { s1 with messages := s1.messages ++ [Message.mk "assistant" reply] }

/-- Helper: a Bool-filter is non-empty iff some member satisfies it. -/
theorem filter_ne_nil_iff (p : Char → Bool) (l : List Char) :
    l.filter p ≠ [] ↔ ∃ c ∈ l, p c = true := by
  constructor
  · intro h
    match hf : l.filter p with
    | [] => exact absurd hf h
    | c :: cs =>
      have hc : c ∈ l.filter p := by rw [hf]; exact List.mem_cons_self c cs
      rcases List.mem_filter.mp hc with ⟨hmem, hp⟩
      exact ⟨c, hmem, hp⟩
  · rintro ⟨c, hmem, hp⟩ hnil
    exact List.not_mem_nil c (hnil ▸ List.mem_filter.mpr ⟨hmem, hp⟩)

/-- C1 counterexample: on the input `"How are you?"` the classifier does
not return `english` (the lowered text contains the marker `"ho"` inside
`"how"`, so the substring check fires). -/
theorem detect_language_how_are_you_not_english :
    detect_language (String.toList "How are you?") ≠ "english" := by
  decide

/-- C1 (amended): `classify "How are you?"` returns `roman_urdu`, because
the lowercased input contains the marker word `"ho"` as a substring of
`"how"`, even though no marker occurs as a standalone word. -/
theorem detect_language_how_are_you :
    detect_language (String.toList "How are you?") = "roman_urdu" ∧
    containsSub (String.toList "ho")
      ((String.toList "How are you?").map lowerChar) = true := by
  decide

/-- C2: any input containing a marker word (case-insensitively, i.e. as a
substring of the lowercased text) and at least one Latin letter is
classified `roman_urdu`. -/
theorem detect_language_marker_roman_urdu (text : List Char)
    (hmark : roman_urdu_words.any
      (fun word => containsSub word (text.map lowerChar)) = true)
    (hlatin : ∃ c ∈ text, isLatinChar c = true) :
    detect_language text = "roman_urdu" := by
  have hen : text.filter isLatinChar ≠ [] :=
    (filter_ne_nil_iff isLatinChar text).mpr hlatin
  unfold detect_language
  rw [if_neg (fun h => hen h.2), if_pos hen, if_pos hmark]

/-- C2 witness: `"kya haal hai"` contains the marker `kya` and Latin
letters, and is classified `roman_urdu`. -/
theorem detect_language_marker_roman_urdu_witness :
    detect_language (String.toList "kya haal hai") = "roman_urdu" :=
  detect_language_marker_roman_urdu (String.toList "kya haal hai")
    (by decide) (by decide)

/-- C3: the classifier returns `urdu` exactly when the input contains an
Arabic-script character and no Latin letter; consequently any input with a
Latin letter is never classified `urdu`. -/
theorem detect_language_urdu_iff (text : List Char) :
    (detect_language text = "urdu" ↔
      (∃ c ∈ text, isUrduChar c = true) ∧ ¬ ∃ c ∈ text, isLatinChar c = true) ∧
    ((∃ c ∈ text, isLatinChar c = true) → detect_language text ≠ "urdu") := by
  have hiff : detect_language text = "urdu" ↔
      (∃ c ∈ text, isUrduChar c = true) ∧ ¬ ∃ c ∈ text, isLatinChar c = true := by
    constructor
    · intro h
      unfold detect_language at h
      by_cases hcond : text.filter isUrduChar ≠ [] ∧ text.filter isLatinChar = [] 
      · refine ⟨(filter_ne_nil_iff isUrduChar text).mp hcond.1, ?_⟩
        intro hex
        exact (filter_ne_nil_iff isLatinChar text).mpr hex hcond.2
      · rw [if_neg hcond] at h
        by_cases hen : text.filter isLatinChar ≠ [] 
        · rw [if_pos hen] at h
          by_cases hmark : (roman_urdu_words.any
              (fun word => containsSub word (text.map lowerChar))) = true
          · rw [if_pos hmark] at h
            exact absurd h (by decide)
          · rw [if_neg hmark] at h
            exact absurd h (by decide)
        · rw [if_neg hen] at h
          exact absurd h (by decide)
    · rintro ⟨hu, hnl⟩
      have h1 : text.filter isUrduChar ≠ [] :=
        (filter_ne_nil_iff isUrduChar text).mpr hu
      have h2 : text.filter isLatinChar = [] := by
        by_contra h
        exact hnl ((filter_ne_nil_iff isLatinChar text).mp h)
      unfold detect_language
      rw [if_pos ⟨h1, h2⟩]
  refine ⟨hiff, fun hex h => ?_⟩
  exact (hiff.mp h).2 hex

/-- C3 witness: `"سلام"` is pure Arabic script, hence `urdu`; and applying
the mixed-text consequence at `"salam سلام"` yields non-`urdu`. -/
theorem detect_language_urdu_iff_witness :
    detect_language (String.toList "سلام") = "urdu" ∧
    detect_language (String.toList "salam سلام") ≠ "urdu" :=
  ⟨(detect_language_urdu_iff (String.toList "سلام")).1.mpr (by decide),
   (detect_language_urdu_iff (String.toList "salam سلام")).2 (by decide)⟩

/-- C4: marker matching is substring-based: `"shop"` is a single word that
equals no marker word (and contains no space), yet because its lowercase
form contains `"ho"` as a substring the classifier returns `roman_urdu`. -/
theorem detect_language_shop_substring :
    detect_language (String.toList "shop") = "roman_urdu" ∧
    (∀ word ∈ roman_urdu_words, word ≠ String.toList "shop") ∧
    (String.toList "shop").all (fun c => c ≠ ' ') = true := by
  decide

/-- C5: `login` succeeds (no error reported) iff both fields are
non-empty; on success it sets `logged_in`, clears `show_login` and stores
the username while keeping `messages`; on failure it reports the
invalid-credentials error and leaves the state unchanged. -/
theorem login_spec (s : SessionState) (u p : List Char) :
    ((login s u p).2 = none ↔ (u ≠ [] ∧ p ≠ [])) ∧
    (u ≠ [] ∧ p ≠ [] →
      (login s u p).1 = { s with logged_in := true, show_login := false,
                                 username := u }) ∧
    (¬ (u ≠ [] ∧ p ≠ []) →
      (login s u p).2 = some "Invalid credentials. Please try again." ∧
      (login s u p).1 = s) := by
  by_cases h : u ≠ [] ∧ p ≠ []
  · refine ⟨?_, fun _ => ?_, fun hn => absurd h hn⟩
    · unfold login; rw [if_pos h]; simpa using h
    · unfold login; rw [if_pos h]
  · refine ⟨?_, fun hc => absurd hc h, fun _ => ?_⟩
    · unfold login; rw [if_neg h]; simpa using h
    · unfold login; rw [if_neg h]; exact ⟨rfl, rfl⟩

/-- C5 witness: `login initState "alice" "secret"` succeeds, while
`login initState "" "x"` leaves the state unchanged. -/
theorem login_spec_witness :
    (login initState (String.toList "alice") (String.toList "secret")).2
      = none ∧
    (login initState (String.toList "") (String.toList "x")).1 = initState :=
  ⟨(login_spec initState (String.toList "alice")
      (String.toList "secret")).1.mpr (by decide),
   ((login_spec initState (String.toList "")
      (String.toList "x")).2.2 (by decide)).2⟩

/-- C6: a successful chat turn appends exactly the user message followed
by the assistant message at the end of `messages` and changes no other
session field. -/
theorem chat_turn_appends (s : SessionState) (prompt reply : List Char) :
    (chat_turn s prompt reply).messages =
      s.messages ++ [Message.mk "user" prompt, Message.mk "assistant" reply] ∧
    (chat_turn s prompt reply).logged_in = s.logged_in ∧
    (chat_turn s prompt reply).show_login = s.show_login ∧
    (chat_turn s prompt reply).username = s.username := by
  refine ⟨?_, rfl, rfl, rfl⟩
  simp [chat_turn]

/-- C6 witness: the append shape evaluated on a concrete one-message
state. -/
theorem chat_turn_appends_witness :
    (chat_turn { initState with messages := [Message.mk "user" (String.toList "hi")] }
        (String.toList "kya haal hai") (String.toList "sab theek")).messages =
      [Message.mk "user" (String.toList "hi"),
       Message.mk "user" (String.toList "kya haal hai"),
       Message.mk "assistant" (String.toList "sab theek")] :=
  (chat_turn_appends
      { initState with messages := [Message.mk "user" (String.toList "hi")] }
      (String.toList "kya haal hai") (String.toList "sab theek")).1

/-- The session states reachable from `initState` by the operations of
main.py: `login` runs while the login form is shown (lines 129-136), and a
chat turn runs when the form is hidden and the user is logged in
(lines 139-153). -/
inductive Reachable : SessionState → Prop
  | init : Reachable initState
  | login_step (s : SessionState) (u p : List Char) :
      Reachable s → s.show_login = true → Reachable (login s u p).1
  | chat_step (s : SessionState) (prompt reply : List Char) :
      Reachable s → s.show_login = false → s.logged_in = true →
      Reachable (chat_turn s prompt reply)

/-- C7: in every reachable session state, `username` is non-empty whenever
`logged_in` is true. -/
theorem reachable_username_nonempty (s : SessionState) (h : Reachable s)
    (hl : s.logged_in = true) : s.username ≠ [] := by
  induction h with
  | init => exact absurd hl (by decide)
  | login_step s u p _ _ ih =>
    by_cases hc : u ≠ [] ∧ p ≠ []
    · unfold login at hl ⊢
      rw [if_pos hc] at hl ⊢
      exact hc.1
    · unfold login at hl ⊢
      rw [if_neg hc] at hl ⊢
      exact ih hl
  | chat_step s prompt reply _ _ _ ih =>
    exact ih hl

/-- C7 witness: the state after a successful login from the initial state
is reachable, logged in, and has non-empty username. -/
theorem reachable_username_nonempty_witness :
    (login initState (String.toList "alice") (String.toList "secret")).1.username
      ≠ [] :=
  reachable_username_nonempty _
    (Reachable.login_step initState (String.toList "alice")
      (String.toList "secret") Reachable.init (by decide))
    (by decide)

/-- The fixed Urdu system prompt of main.py lines 84-87. -/
def urdu_system_prompt : String :=
  "آپ ایک ذہین اور دوستانہ چیٹ بوٹ ہیں۔ ہمیشہ اردو میں جواب دیں۔ انگریزی یا دیگر زبانوں کا استعمال نہ کریں۔"

/-- The fixed Roman-Urdu system prompt of main.py lines 89-93. -/
def roman_urdu_system_prompt : String :=
  "You are a friendly assistant. User is speaking Roman Urdu (Urdu written in English letters). Reply in Roman Urdu naturally, like a human conversation."

/-- The fixed English system prompt of main.py lines 95-98. -/
def english_system_prompt : String :=
  "You are a professional and kind English-speaking assistant. Always reply in English."

/-- The system instruction chosen from the classifier label by the
if/elif/else chain of main.py lines 83-98: a function of the label only. -/
def system_prompt_for (lang : String) : String :=
  if lang = "urdu" then urdu_system_prompt
  else if lang = "roman_urdu" then roman_urdu_system_prompt
  else english_system_prompt

/-- A chat-completion request: fixed model identifier plus message list. -/
structure ChatRequest where
  model : String
  messages : List Message
deriving DecidableEq, Repr

/-- One choice of a chat-completion response. -/
structure Choice where
  message : Message
deriving DecidableEq, Repr

/-- A chat-completion response: a list of choices. -/
structure ChatResponse where
  choices : List Choice
deriving DecidableEq, Repr

/-- The request `get_gemini_reply` sends (main.py lines 100-107): model
`gemini-2.0-flash`, a system message carrying the instruction selected
from the detected language, then the user message. -/
def get_gemini_reply_request (prompt : List Char) : ChatRequest :=
  { model := "gemini-2.0-flash"
  , messages :=
      [ Message.mk "system" (system_prompt_for (detect_language prompt)).toList
      , Message.mk "user" prompt ] }

/-- How `get_gemini_reply` reads the response (main.py line 108):
`response.choices[0].message.content`; `none` models the IndexError on an
empty choice list. -/
def reply_of_response (resp : ChatResponse) : Option (List Char) :=
  resp.choices.head?.map fun c => c.message.content

/-- C8: the request is exactly two messages — a system message whose
content is the instruction determined solely by the classifier label,
then the user message with the input — sent to the fixed model; and the
returned text is the content of the response's first choice. -/
theorem get_gemini_reply_spec (prompt : List Char) :
    (get_gemini_reply_request prompt).model = "gemini-2.0-flash" ∧
    (get_gemini_reply_request prompt).messages =
      [ Message.mk "system" (system_prompt_for (detect_language prompt)).toList
      , Message.mk "user" prompt ] ∧
    (∀ q : List Char, detect_language q = detect_language prompt →
      (get_gemini_reply_request q).messages.head? =
        (get_gemini_reply_request prompt).messages.head?) ∧
    (∀ (resp : ChatResponse) (c : Choice) (rest : List Choice),
      resp.choices = c :: rest →
      reply_of_response resp = some c.message.content) := by
  refine ⟨rfl, rfl, ?_, ?_⟩
  · intro q hq
    simp [get_gemini_reply_request, hq]
  · intro resp c rest hc
    simp [reply_of_response, hc]

/-- C8 witness: the request for `"kya haal hai"` carries the Roman-Urdu
instruction then the user text, and a one-choice response yields that
choice's content. -/
theorem get_gemini_reply_spec_witness :
    (get_gemini_reply_request (String.toList "kya haal hai")).messages =
      [ Message.mk "system" roman_urdu_system_prompt.toList
      , Message.mk "user" (String.toList "kya haal hai") ] ∧
    reply_of_response
      (ChatResponse.mk [Choice.mk (Message.mk "assistant" (String.toList "sab theek"))])
      = some (String.toList "sab theek") := by
  refine ⟨?_, ?_⟩
  · have h := (get_gemini_reply_spec (String.toList "kya haal hai")).2.1
    rw [h]
    have hl : detect_language (String.toList "kya haal hai") = "roman_urdu" := by
      decide
    rw [hl]
    rfl
  · exact (get_gemini_reply_spec (String.toList "kya haal hai")).2.2.2
      (ChatResponse.mk [Choice.mk (Message.mk "assistant" (String.toList "sab theek"))])
      (Choice.mk (Message.mk "assistant" (String.toList "sab theek"))) [] rfl

/-- C9: the classifier is total — it always returns one of the three
labels — and on input with neither an Arabic-script character nor a Latin
letter (in particular the empty string) it returns `english`. -/
theorem detect_language_total_default (text : List Char) :
    (detect_language text = "urdu" ∨ detect_language text = "roman_urdu" ∨
      detect_language text = "english") ∧
    ((∀ c ∈ text, isUrduChar c = false ∧ isLatinChar c = false) →
      detect_language text = "english") ∧
    detect_language [] = "english" := by
  refine ⟨?_, ?_, by decide⟩
  · unfold detect_language
    split
    · exact Or.inl rfl
    · split
      · split
        · exact Or.inr (Or.inl rfl)
        · exact Or.inr (Or.inr rfl)
      · exact Or.inr (Or.inr rfl)
  · intro hnone
    have h2 : text.filter isLatinChar = [] := by
      by_contra h
      rcases (filter_ne_nil_iff isLatinChar text).mp h with ⟨c, hmem, hp⟩
      have := (hnone c hmem).2
      rw [this] at hp
      exact Bool.false_ne_true hp
    have h1 : text.filter isUrduChar = [] := by
      by_contra h
      rcases (filter_ne_nil_iff isUrduChar text).mp h with ⟨c, hmem, hp⟩
      have := (hnone c hmem).1
      rw [this] at hp
      exact Bool.false_ne_true hp
    unfold detect_language
    rw [if_neg (fun hc => hc.1 h1), if_neg (fun hc => hc h2)]

/-- C9 witness: the purely numeric input `"12345"` has no Arabic-script
characters and no Latin letters and is classified `english`. -/
theorem detect_language_total_default_witness :
    detect_language (String.toList "12345") = "english" :=
  (detect_language_total_default (String.toList "12345")).2.1 (by decide)

/-- Outcome of the startup key check: either the script is stopped after
showing an error, or execution continues into the UI. -/
inductive StartupResult where
  | halted : String → StartupResult
  | running : StartupResult
deriving DecidableEq, Repr

/-- The error shown by main.py line 14 when the key is missing. -/
def api_key_missing_message : String :=
  "GEMINI_API_KEY is not set. Please ensure it is defined in your .env file."

/-- Embedding of the startup check (main.py lines 11-15): `os.getenv`
yields `none` when the variable is absent; `if not gemini_api_key` is true
for `none` and for the empty string, in which case `st.error` shows the
message and `st.stop` halts before any further code runs. -/
def startup (gemini_api_key : Option String) : StartupResult :=
  match gemini_api_key with
  | none => StartupResult.halted api_key_missing_message
  | some k =>
      if k = "" then StartupResult.halted api_key_missing_message
      else StartupResult.running

/-- C10: with the API key absent, startup halts with the user-visible
error message and never reaches the running state (no login form, chat
surface, or network call). -/
theorem startup_missing_key_halts :
    startup none = StartupResult.halted api_key_missing_message ∧
    startup none ≠ StartupResult.running := by
  exact ⟨rfl, by decide⟩
